import Mathlib

/-!
Verification of the session state machine and order-assembly engine of
`app.py` (a conversational food-ordering bot). The definitions below are a
shallow embedding of the handlers of `app.py`: SQLite tables become lists of
rows, the aiogram FSM context becomes an explicit `Session` value, Python
string helpers are modelled structurally on `List Char`, REAL columns become
`ℚ`, and user-visible messages are abstracted into the `Reply` type.
-/

namespace StreetEda

/-- Conversational step of a user's session. `idle` is the cleared FSM
context (no state set); the other constructors mirror the `OrderState` and
`AdminState` groups of `app.py` (lines 91–103). -/
inductive SessState
  | idle
  | awaitingName
  | awaitingPhone
  | awaitingAddress
  | awaitingComment
  | awaitingFinalConfirmation
  | awaitingNewCategoryName
  | awaitNewItemName
  | awaitNewItemPrice
  | awaitNewPrice
  | awaitNewSettingValue
  deriving DecidableEq, Repr

/-- The per-user FSM data dictionary: one optional slot per key the bot ever
stores (`update_data` sets a slot, `clear` resets all of them, `set_state`
leaves them untouched). -/
structure Fields where
  name : Option String := none
  phone : Option String := none
  deliveryType : Option String := none
  address : Option String := none
  comment : Option String := none
  finalTotal : Option ℚ := none
  categoryId : Option Nat := none
  itemId : Option Nat := none
  key : Option String := none
  deriving DecidableEq, Repr

/-- A user's session: current FSM state plus collected fields. -/
structure Session where
  state : SessState
  data : Fields
  deriving DecidableEq, Repr

/-- `state.clear()`: no state set, empty data. -/
def Session.cleared : Session := ⟨SessState.idle, {}⟩

/-- Row of the `categories` table. -/
structure Category where
  id : Nat
  name : String
  deriving DecidableEq, Repr

/-- Row of the `menu_items` table (the `description` and `photo_id` columns
are never read by the modelled handlers and are omitted). -/
structure MenuItem where
  id : Nat
  name : String
  price : ℚ
  categoryId : Nat
  deriving DecidableEq, Repr

/-- Row of the `cart` table. -/
structure CartLine where
  userId : Nat
  itemId : Nat
  quantity : Nat
  deriving DecidableEq, Repr

/-- A row of the cart ⋈ menu_items join used by `confirm_order` and
`process_final_confirmation` (id, name, price, quantity). -/
structure CartRow where
  itemId : Nat
  name : String
  price : ℚ
  quantity : Nat
  deriving DecidableEq, Repr

/-- The mutable stores read and written by the modelled handlers. -/
structure Db where
  categories : List Category
  menuItems : List MenuItem
  cart : List CartLine
  settings : List (String × ℚ)
  deriving DecidableEq, Repr

/-- The user-visible outcome of a handler, abstracting the concrete message
texts of `app.py`. -/
inductive Reply
  | emptyCartMsg
  | emptyCartAlert
  | askName
  | askDeliveryMode
  | phoneFormatError
  | orderAccepted
  | orderCancelled
  | priceFormatError
  | numberFormatError
  | itemAdded
  | priceUpdated
  | settingUpdated
  | categoryExists
  | categoryAdded
  deriving DecidableEq, Repr

/-- A single SQL write relevant to the order-commit path. -/
inductive StoreOp
  | insertOrder (userId : Nat)
      (userName phoneNumber deliveryType address comment : String)
      (totalAmount : ℚ)
  | insertOrderItem (itemName : String) (quantity : Nat) (pricePerItem : ℚ)
  | deleteCartOfUser (userId : Nat)
  deriving DecidableEq, Repr

/-! ### Python string helpers, modelled structurally -/

/-- Python `re.sub(r'\D', '', text)`: keep only the digit characters. -/
def stripNonDigits (text : String) : String :=
  String.mk (text.data.filter Char.isDigit)

/-- Python `str.strip()`: drop whitespace from both ends. -/
def pyStrip (cs : List Char) : List Char :=
  ((cs.dropWhile Char.isWhitespace).reverse.dropWhile Char.isWhitespace).reverse

/-- Python `str.split(sep)` for a one-character separator. -/
def pySplit (sep : Char) : List Char → List (List Char)
  | [] => [[]]
  | c :: cs =>
    if c = sep then [] :: pySplit sep cs
    else
      match pySplit sep cs with
      | g :: gs => (c :: g) :: gs
      | [] => [[c]]

/-- Value of a list of decimal digit characters. -/
def digitsToNat (cs : List Char) : Nat :=
  cs.foldl (fun a c => 10 * a + (c.toNat - 48)) 0

/-- Leading sign of a numeric literal: (isNegative, rest). -/
def pySign : List Char → Bool × List Char
  | '-' :: r => (true, r)
  | '+' :: r => (false, r)
  | cs => (false, cs)

/-- Optional exponent suffix of a `float()` literal applied to the already
parsed significand; `none` is a ValueError. -/
def pyExponent? (signed : ℚ) : List Char → Option ℚ
  | [] => some signed
  | e :: r =>
    if e = 'e' ∨ e = 'E' then
      let (eneg, r1) := pySign r
      let ed := r1.takeWhile Char.isDigit
      let rest := r1.dropWhile Char.isDigit
      if ed.isEmpty || !rest.isEmpty then none
      else
        some (if eneg then signed / (10 : ℚ) ^ digitsToNat ed
              else signed * (10 : ℚ) ^ digitsToNat ed)
    else none

/-- Model of the Python built-in `float(...)` on finite decimal literals:
optional surrounding whitespace, optional sign, digits with an optional
fractional part, optional exponent; `none` models a ValueError. (Python
additionally accepts `inf`/`nan` spellings and digit-group underscores;
no flow of this program relies on those.) -/
def pyFloat? (text : String) : Option ℚ :=
  let cs := pyStrip text.data
  let (neg, cs1) := pySign cs
  let ip := cs1.takeWhile Char.isDigit
  let cs2 := cs1.dropWhile Char.isDigit
  let (fp, cs3) :=
    match cs2 with
    | '.' :: r => (r.takeWhile Char.isDigit, r.dropWhile Char.isDigit)
    | _ => (([] : List Char), cs2)
  if ip.length + fp.length = 0 then none
  else
    let mant : ℚ :=
      if fp.isEmpty then (digitsToNat ip : ℚ)
      else (digitsToNat ip : ℚ) + (digitsToNat fp : ℚ) / (10 : ℚ) ^ fp.length
    pyExponent? (if neg then -mant else mant) cs3

/-- Fresh rowid for an `INTEGER PRIMARY KEY` column: SQLite assigns one more
than the largest rowid in use. -/
def freshId (ids : List Nat) : Nat := ids.foldr max 0 + 1

/-! ### Handlers of the order flow -/

/-- The checkout computation of `confirm_order` (`app.py` lines 183–197):
subtotal over the joined cart rows, delivery cost, and final total. -/
def confirmOrderTotals (deliveryType : String) (deliveryFee freeDeliveryThreshold : ℚ)
    (cartItems : List CartRow) : ℚ × ℚ × ℚ :=
  let subtotal : ℚ := (cartItems.map fun r => r.price * (r.quantity : ℚ)).sum
  let deliveryCost : ℚ :=
    if deliveryType = "delivery" then
      if subtotal < freeDeliveryThreshold then deliveryFee else 0
    else 0
  (subtotal, deliveryCost, subtotal + deliveryCost)

/-- `process_final_confirmation` (`app.py` lines 218–256). Returns the new
session, the store transactions performed — each inner list is the content of
one committed transaction, in order — and the reply. The first transaction is
the `async with` block committing the order row and its order items; the cart
deletion (line 255) is a separate later `db_query(..., commit=True)` call.
`none` models the uncaught KeyError when a required field is missing. -/
def processFinalConfirmation (userId : Nat) (data : Fields) (cartItems : List CartRow) :
    Option (Session × List (List StoreOp) × Reply) :=
  if cartItems.isEmpty then
    some (Session.cleared, [], Reply.emptyCartMsg)
  else
    match data.deliveryType, data.name, data.phone with
    | some dt, some nm, some ph =>
      let finalTotal := data.finalTotal.getD 0
      some (Session.cleared,
        [StoreOp.insertOrder userId nm ph dt (data.address.getD "") (data.comment.getD "")
            finalTotal
          :: cartItems.map (fun r => StoreOp.insertOrderItem r.name r.quantity r.price),
         [StoreOp.deleteCartOfUser userId]],
        Reply.orderAccepted)
    | _, _, _ => none

/-- `handle_checkout` (`app.py` lines 480–488): entry to the order flow,
given the current user's cart rows. With an empty cart it only shows an
alert and returns; otherwise it sets the state to `awaiting_name` (leaving
the FSM data untouched — `set_state` does not clear data). It performs no
store operation in either branch. -/
def handleCheckout (sess : Session) (userCart : List CartLine) : Session × Reply :=
  if userCart.isEmpty then
    (sess, Reply.emptyCartAlert)
  else
    ({ sess with state := SessState.awaitingName }, Reply.askName)

/-- `process_phone_text` (`app.py` lines 362–373). On acceptance the raw text
is stored under `phone` and the delivery-mode keyboard is offered (this
handler never calls `set_state`, so the FSM state field itself stays
`awaiting_phone` in both branches). -/
def processPhoneText (sess : Session) (text : String) : Session × Reply :=
  let phone := stripNonDigits text
  if 10 ≤ phone.length ∧ phone.length ≤ 15 then
    ({ sess with data := { sess.data with phone := some text } }, Reply.askDeliveryMode)
  else
    (sess, Reply.phoneFormatError)

/-- Registration guard of `handle_delivery_choice` (`app.py` line 490):
`F.data.startswith('delivery:')` — the registration carries no session-state
filter, so the guard inspects the callback data only. -/
def deliveryChoiceGuard (cbData : String) : Bool :=
  "delivery:".data.isPrefixOf cbData.data

/-- `handle_delivery_choice` (`app.py` lines 490–501): `delivery_type` is
`q.data.split(':')[1]`; it is stored via `update_data`, then the state is set
to `awaiting_address` for `delivery` and `awaiting_comment` otherwise. (The
guard guarantees the split has a second component; `getD` models the indexed
access under that guard.) -/
def handleDeliveryChoice (sess : Session) (cbData : String) : Session :=
  let deliveryType := String.mk ((pySplit ':' cbData.data).getD 1 [])
  let data := { sess.data with deliveryType := some deliveryType }
  if deliveryType = "delivery" then ⟨SessState.awaitingAddress, data⟩
  else ⟨SessState.awaitingComment, data⟩

/-- `handle_cancel_order` (`app.py` lines 508–513): clears the session and
answers; it issues no SQL statement, so the store list is empty and the
database value is returned unchanged. -/
def handleCancelOrder : Session → Db → Session × Db × List StoreOp × Reply :=
  fun _ db => (Session.cleared, db, [], Reply.orderCancelled)

/-- `admin_panel_command` (`app.py` lines 516–519): `state.clear()` then the
admin panel is shown. -/
def adminPanelCommand : Session → Session :=
  fun _ => Session.cleared

/-! ### Handlers of the admin flow -/

/-- `process_new_category_name` (`app.py` lines 391–401): strip the text,
reject if a category of that name exists, else insert it and clear the
session. -/
def processNewCategoryName (sess : Session) (db : Db) (text : String) :
    Session × Db × Reply :=
  let catName := String.mk (pyStrip text.data)
  if db.categories.any (fun c => c.name == catName) then
    (sess, db, Reply.categoryExists)
  else
    (Session.cleared,
      { db with categories :=
          db.categories ++ [⟨freshId (db.categories.map Category.id), catName⟩] },
      Reply.categoryAdded)

/-- `process_new_item_price` (`app.py` lines 409–420): `float(message.text)`
inside try/except ValueError; on success insert the item and clear the
session, on ValueError answer and change nothing. `none` models the uncaught
KeyError when `name`/`category_id` are missing from the FSM data. -/
def processNewItemPrice (sess : Session) (db : Db) (text : String) :
    Option (Session × Db × Reply) :=
  match pyFloat? text with
  | none => some (sess, db, Reply.priceFormatError)
  | some price =>
    match sess.data.name, sess.data.categoryId with
    | some nm, some catId =>
      some (Session.cleared,
        { db with menuItems :=
            db.menuItems ++ [⟨freshId (db.menuItems.map MenuItem.id), nm, price, catId⟩] },
        Reply.itemAdded)
    | _, _ => none

/-- `process_new_price` (`app.py` lines 422–432): reprice the item stored in
the FSM data. -/
def processNewPrice (sess : Session) (db : Db) (text : String) :
    Option (Session × Db × Reply) :=
  match pyFloat? text with
  | none => some (sess, db, Reply.priceFormatError)
  | some newPrice =>
    match sess.data.itemId with
    | some iid =>
      some (Session.cleared,
        { db with menuItems :=
            db.menuItems.map (fun i => if i.id = iid then { i with price := newPrice } else i) },
        Reply.priceUpdated)
    | none => none

/-- `process_new_setting_value` (`app.py` lines 434–444): update the setting
whose key is stored in the FSM data. -/
def processNewSettingValue (sess : Session) (db : Db) (text : String) :
    Option (Session × Db × Reply) :=
  match pyFloat? text with
  | none => some (sess, db, Reply.numberFormatError)
  | some newValue =>
    match sess.data.key with
    | some k =>
      some (Session.cleared,
        { db with settings :=
            db.settings.map (fun kv => if kv.1 = k then (kv.1, newValue) else kv) },
        Reply.settingUpdated)
    | none => none

/-- `admin_confirm_delete_category` (`app.py` lines 549–556): three
successive DELETE statements — cart rows whose item belongs to the category
(judged against the menu items present when the subquery runs), then the
items of the category, then the category row itself. -/
def adminConfirmDeleteCategory (db : Db) (catId : Nat) : Db :=
  let keptCart := db.cart.filter (fun l =>
    !(db.menuItems.any fun i => i.id == l.itemId && i.categoryId == catId))
  let db1 := { db with cart := keptCart }
  let db2 := { db1 with menuItems := db1.menuItems.filter (fun i => i.categoryId != catId) }
  { db2 with categories := db2.categories.filter (fun c => c.id != catId) }

/-! ### Concrete stores used by witnesses and counterexamples -/

/-- A small concrete store: one category, one menu item, standard settings. -/
def dbCex : Db :=
  { categories := [⟨1, "Food"⟩],
    menuItems := [⟨1, "Fries", 100, 1⟩],
    cart := [],
    settings := [("delivery_fee", 400), ("free_delivery_threshold", 1000)] }

/-! ### Claims -/

/-- C2: for every cart and settings pair the checkout computation yields a
subtotal equal to the sum over cart lines of unit price times quantity, adds
the delivery fee iff the mode is delivery and the subtotal is strictly below
the free-delivery threshold (and zero fee otherwise), and a final total equal
to subtotal plus fee. -/
theorem C2_checkout_totals (deliveryType : String) (fee threshold : ℚ)
    (cartItems : List CartRow) :
    (confirmOrderTotals deliveryType fee threshold cartItems).1
        = (cartItems.map fun r => r.price * (r.quantity : ℚ)).sum
    ∧ (confirmOrderTotals deliveryType fee threshold cartItems).2.1
        = (if deliveryType = "delivery"
              ∧ (cartItems.map fun r => r.price * (r.quantity : ℚ)).sum < threshold
           then fee else 0)
    ∧ (confirmOrderTotals deliveryType fee threshold cartItems).2.2
        = (confirmOrderTotals deliveryType fee threshold cartItems).1
          + (confirmOrderTotals deliveryType fee threshold cartItems).2.1 := by
  unfold confirmOrderTotals
  refine ⟨rfl, ?_, rfl⟩
  by_cases h1 : deliveryType = "delivery"
  · by_cases h2 : (cartItems.map fun r => r.price * (r.quantity : ℚ)).sum < threshold
    · simp [h1, h2]
    · simp [h1, h2]
  · simp [h1]

/-- C4: in the awaiting-phone state a free-text message leads to the
delivery-mode selection being offered iff the number of digits left after
stripping all non-digit characters lies in [10, 15]; every other free-text
input leaves the session (state and collected fields) unchanged and surfaces
a format error for retry. -/
theorem C4_phone_validation (sess : Session) (text : String) :
    ((processPhoneText sess text).2 = Reply.askDeliveryMode
        ↔ 10 ≤ (stripNonDigits text).length ∧ (stripNonDigits text).length ≤ 15)
    ∧ (¬ (10 ≤ (stripNonDigits text).length ∧ (stripNonDigits text).length ≤ 15)
        → processPhoneText sess text = (sess, Reply.phoneFormatError)) := by
  unfold processPhoneText
  by_cases h : 10 ≤ (stripNonDigits text).length ∧ (stripNonDigits text).length ≤ 15 <;>
    simp [h]

/-- C4 witness: a text with only three digits is rejected with the session
unchanged. -/
theorem C4_phone_validation_witness :
    ¬ (10 ≤ (stripNonDigits "12c").length ∧ (stripNonDigits "12c").length ≤ 15)
    ∧ processPhoneText ⟨SessState.awaitingPhone, {}⟩ "12c"
        = (⟨SessState.awaitingPhone, {}⟩, Reply.phoneFormatError) :=
  ⟨by decide, (C4_phone_validation ⟨SessState.awaitingPhone, {}⟩ "12c").2 (by decide)⟩

/-- C5: cancelling at the final-confirmation step clears the session back to
idle, performs no store operation at all (in particular it creates no Order),
and returns the cart, catalog and settings stores unchanged. -/
theorem C5_cancel_frame (sess : Session) (db : Db) :
    (handleCancelOrder sess db).1 = Session.cleared
    ∧ (handleCancelOrder sess db).2.1 = db
    ∧ (handleCancelOrder sess db).2.2.1 = ([] : List StoreOp) :=
  ⟨rfl, rfl, rfl⟩

/-- C10: the delivery-choice callback is dispatched with no session-state
guard — its registration predicate inspects only the `delivery:` prefix of
the callback data — and in every session state (idle and admin states
included, with no name or phone collected) it stores the delivery type into
the collected fields and moves the session to awaiting-address for delivery
and awaiting-comment for takeaway. -/
theorem C10_delivery_choice_unguarded (st : SessState) (d : Fields) :
    deliveryChoiceGuard "delivery:delivery" = true
    ∧ deliveryChoiceGuard "delivery:takeaway" = true
    ∧ handleDeliveryChoice ⟨st, d⟩ "delivery:delivery"
        = ⟨SessState.awaitingAddress, { d with deliveryType := some "delivery" }⟩
    ∧ handleDeliveryChoice ⟨st, d⟩ "delivery:takeaway"
        = ⟨SessState.awaitingComment, { d with deliveryType := some "takeaway" }⟩ :=
  ⟨rfl, rfl, rfl, rfl⟩

/-- C3 as stated fails at checkout entry: with an empty cart,
`handle_checkout` reports the empty cart but returns without touching the
session, so a session that was in awaiting-phone stays there (with its
collected fields) instead of being cleared back to idle. -/
theorem C3_counterexample :
    handleCheckout ⟨SessState.awaitingPhone, { phone := some "123" }⟩ []
      = (⟨SessState.awaitingPhone, { phone := some "123" }⟩, Reply.emptyCartAlert)
    ∧ (⟨SessState.awaitingPhone, { phone := some "123" }⟩ : Session) ≠ Session.cleared :=
  ⟨rfl, by decide⟩

/-- C3 amended: an empty cart re-read never creates an Order; at the final
confirmation the session is cleared back to idle and the empty-cart message
is sent, while at checkout entry the empty-cart alert is shown and the
handler returns with the session left exactly as it was (neither branch
performs any store operation). -/
theorem C3_empty_cart (userId : Nat) (d : Fields) (sess : Session) :
    processFinalConfirmation userId d [] = some (Session.cleared, [], Reply.emptyCartMsg)
    ∧ handleCheckout sess [] = (sess, Reply.emptyCartAlert) :=
  ⟨rfl, rfl⟩

/-- C6 as stated fails for the order flow: `handle_checkout` only sets the
state to awaiting-name and never clears the FSM data, so a field collected in
an earlier flow (here a leftover comment) survives into the newly started
checkout. -/
theorem C6_counterexample :
    handleCheckout ⟨SessState.idle, { comment := some "no onions" }⟩ [⟨7, 1, 1⟩]
      = (⟨SessState.awaitingName, { comment := some "no onions" }⟩, Reply.askName)
    ∧ ({ comment := some "no onions" } : Fields) ≠ ({} : Fields) :=
  ⟨rfl, by decide⟩

/-- C6 amended: opening the admin panel clears and replaces any prior session
unconditionally, but beginning checkout (with a non-empty cart) only sets the
current step to awaiting-name and keeps every previously collected field in
the session data. -/
theorem C6_new_flow_session (sess : Session) (l : CartLine) (ls : List CartLine) :
    adminPanelCommand sess = Session.cleared
    ∧ handleCheckout sess (l :: ls) = (⟨SessState.awaitingName, sess.data⟩, Reply.askName) :=
  ⟨rfl, rfl⟩

/-- C1 as stated fails: at a concrete confirmed checkout the commit issues
two separate transactions — the Order row together with its OrderLines in the
first, the deletion of the user's cart rows alone in the second — so no
single transaction contains the order insert and the cart deletion. -/
theorem C1_counterexample :
    processFinalConfirmation 7
        { name := some "Ann", phone := some "123", deliveryType := some "takeaway",
          finalTotal := some 460 }
        [⟨1, "Shawarma", 230, 2⟩]
      = some (Session.cleared,
          [[StoreOp.insertOrder 7 "Ann" "123" "takeaway" "" "" 460,
            StoreOp.insertOrderItem "Shawarma" 2 230],
           [StoreOp.deleteCartOfUser 7]],
          Reply.orderAccepted)
    ∧ ([[StoreOp.insertOrder 7 "Ann" "123" "takeaway" "" "" 460,
         StoreOp.insertOrderItem "Shawarma" 2 230],
        [StoreOp.deleteCartOfUser 7]].any fun t =>
          decide (StoreOp.insertOrder 7 "Ann" "123" "takeaway" "" "" 460 ∈ t
                  ∧ StoreOp.deleteCartOfUser 7 ∈ t)) = false := by
  refine ⟨rfl, by decide⟩

/-- C1 amended: when the user confirms and the re-read cart is non-empty, the
Order row with the cached total and one OrderLine per cart row (frozen
name/price/quantity) are inserted in one durable transaction, and the
deletion of all of that user's cart rows is a second, separate transaction
performed afterwards — so an Order never exists with only part of its
OrderLines, but an outcome may leave the Order committed before the cart is
cleared. -/
theorem C1_commit_two_transactions (userId : Nat) (d : Fields)
    (nm ph dt : String) (r : CartRow) (rs : List CartRow) :
    processFinalConfirmation userId
        { d with name := some nm, phone := some ph, deliveryType := some dt } (r :: rs)
      = some (Session.cleared,
          [StoreOp.insertOrder userId nm ph dt (d.address.getD "") (d.comment.getD "")
              (d.finalTotal.getD 0)
            :: (r :: rs).map (fun x => StoreOp.insertOrderItem x.name x.quantity x.price),
           [StoreOp.deleteCartOfUser userId]],
          Reply.orderAccepted) :=
  rfl

/-- C7 as stated fails: "-5" parses as the negative number -5 — not a
non-negative number — yet `process_new_price` still mutates the store,
repricing the item to -5; none of the numeric admin handlers checks the
sign. -/
theorem C7_counterexample :
    pyFloat? "-5" = some (-5)
    ∧ ((-5 : ℚ) < 0)
    ∧ processNewPrice ⟨SessState.awaitNewPrice, { itemId := some 1 }⟩ dbCex "-5"
        = some (Session.cleared, { dbCex with menuItems := [⟨1, "Fries", -5, 1⟩] },
            Reply.priceUpdated)
    ∧ ({ dbCex with menuItems := [⟨1, "Fries", -5, 1⟩] } : Db) ≠ dbCex :=
  ⟨by decide, by decide, by decide, by decide⟩

/-- C7 amended: in the admin states awaiting an item price, a new price or a
setting value, an input is accepted and the store mutated iff it parses as a
number — the sign is never checked, so negative values are accepted too;
every input that does not parse leaves the store untouched and the admin
state machine where it was, re-prompting for retry. -/
theorem C7_numeric_admin_inputs (sess : Session) (db : Db) (text : String) :
    (pyFloat? text = none →
        processNewItemPrice sess db text = some (sess, db, Reply.priceFormatError)
        ∧ processNewPrice sess db text = some (sess, db, Reply.priceFormatError)
        ∧ processNewSettingValue sess db text = some (sess, db, Reply.numberFormatError))
    ∧ (∀ v : ℚ, pyFloat? text = some v →
        (∀ nm : String, ∀ catId : Nat,
            sess.data.name = some nm → sess.data.categoryId = some catId →
            processNewItemPrice sess db text
              = some (Session.cleared,
                  { db with menuItems := db.menuItems
                      ++ [⟨freshId (db.menuItems.map MenuItem.id), nm, v, catId⟩] },
                  Reply.itemAdded))
        ∧ (∀ iid : Nat, sess.data.itemId = some iid →
            processNewPrice sess db text
              = some (Session.cleared,
                  { db with menuItems :=
                      (db.menuItems.map fun i =>
                        if i.id = iid then { i with price := v } else i) },
                  Reply.priceUpdated))
        ∧ (∀ k : String, sess.data.key = some k →
            processNewSettingValue sess db text
              = some (Session.cleared,
                  { db with settings :=
                      (db.settings.map fun kv =>
                        if kv.1 = k then (kv.1, v) else kv) },
                  Reply.settingUpdated))) := by
  constructor
  · intro h
    refine ⟨?_, ?_, ?_⟩ <;> simp [processNewItemPrice, processNewPrice,
      processNewSettingValue, h]
  · intro v hv
    refine ⟨?_, ?_, ?_⟩
    · intro nm catId hn hc
      simp [processNewItemPrice, hv, hn, hc]
    · intro iid hi
      simp [processNewPrice, hv, hi]
    · intro k hk
      simp [processNewSettingValue, hv, hk]

/-- C7 witness: "abc" does not parse and is rejected with no mutation, while
"12" parses and updates the price of item 1. -/
theorem C7_numeric_admin_inputs_witness :
    pyFloat? "abc" = none
    ∧ processNewPrice ⟨SessState.awaitNewPrice, { itemId := some 1 }⟩ dbCex "abc"
        = some (⟨SessState.awaitNewPrice, { itemId := some 1 }⟩, dbCex, Reply.priceFormatError)
    ∧ pyFloat? "12" = some 12
    ∧ processNewPrice ⟨SessState.awaitNewPrice, { itemId := some 1 }⟩ dbCex "12"
        = some (Session.cleared,
            { dbCex with menuItems :=
                (dbCex.menuItems.map fun i =>
                  if i.id = 1 then { i with price := 12 } else i) },
            Reply.priceUpdated) :=
  ⟨by decide,
   ((C7_numeric_admin_inputs ⟨SessState.awaitNewPrice, { itemId := some 1 }⟩ dbCex "abc").1
       (by decide)).2.1,
   by decide,
   ((C7_numeric_admin_inputs ⟨SessState.awaitNewPrice, { itemId := some 1 }⟩ dbCex "12").2
       12 (by decide)).2.1 1 (by decide)⟩

/-- C8 as stated fails: the handler checks only uniqueness, never emptiness —
an all-whitespace submission strips to the empty name, which is not an
existing category, so the catalog is mutated by inserting a category with an
empty name. -/
theorem C8_counterexample :
    String.mk (pyStrip " ".data) = ""
    ∧ processNewCategoryName ⟨SessState.awaitingNewCategoryName, {}⟩ dbCex " "
        = (Session.cleared,
           { dbCex with categories := [⟨1, "Food"⟩, ⟨2, ""⟩] },
           Reply.categoryAdded)
    ∧ ({ dbCex with categories := [⟨1, "Food"⟩, ⟨2, ""⟩] } : Db) ≠ dbCex :=
  ⟨by decide, by decide, by decide⟩

/-- C8 amended: in the admin state awaiting a new category name, the category
is created iff the stripped name is not already the name of an existing
category; a duplicate is rejected with no mutation of the catalog store, but
emptiness is not checked (an empty stripped name that is new is inserted). -/
theorem C8_category_name (sess : Session) (db : Db) (text : String) :
    ((db.categories.any fun c => c.name == String.mk (pyStrip text.data)) = true →
        processNewCategoryName sess db text = (sess, db, Reply.categoryExists))
    ∧ ((db.categories.any fun c => c.name == String.mk (pyStrip text.data)) = false →
        processNewCategoryName sess db text
          = (Session.cleared,
             { db with categories := db.categories
                 ++ [⟨freshId (db.categories.map Category.id), String.mk (pyStrip text.data)⟩] },
             Reply.categoryAdded)) := by
  unfold processNewCategoryName
  constructor <;> intro h <;> simp [h]

/-- C8 witness: submitting the name of the existing category rejects with the
store and session unchanged. -/
theorem C8_category_name_witness :
    (dbCex.categories.any fun c => c.name == String.mk (pyStrip "Food".data)) = true
    ∧ processNewCategoryName ⟨SessState.awaitingNewCategoryName, {}⟩ dbCex "Food"
        = (⟨SessState.awaitingNewCategoryName, {}⟩, dbCex, Reply.categoryExists) :=
  ⟨by decide,
   (C8_category_name ⟨SessState.awaitingNewCategoryName, {}⟩ dbCex "Food").1 (by decide)⟩

/-- C9: after the admin category-deletion action completes, no category row
with that id remains, no menu item of that category remains, and no cart line
of any user referencing a menu item that belonged to that category remains —
no orphaned item or cart row survives the cascade. -/
theorem C9_delete_category_cascade (db : Db) (catId : Nat) :
    ((adminConfirmDeleteCategory db catId).categories.all fun c => c.id != catId) = true
    ∧ ((adminConfirmDeleteCategory db catId).menuItems.all fun i => i.categoryId != catId) = true
    ∧ ((adminConfirmDeleteCategory db catId).cart.all fun l =>
        !(db.menuItems.any fun i => i.id == l.itemId && i.categoryId == catId)) = true := by
  unfold adminConfirmDeleteCategory
  refine ⟨?_, ?_, ?_⟩ <;> simp [List.all_eq_true, List.mem_filter]

end StreetEda
